import Mathlib

/-!
Verification of the mode crate: a behavioral state-machine library.

The embedding covers:
* the Mode contract and its three ownership variants from src/src/mode.rs
  (crate-level Mode, and the boxed, rc and sync modules);
* the three-state activity example from src/examples/activity.rs
  (Working / Eating / Sleeping);
* the Automaton container, whose file (src/automaton.rs, declared in
  src/src/lib.rs as mod automaton) is not among the repository files and is
  therefore modelled from the spec.

A Family (family.rs is likewise declared but absent) is a compile-time-only
grouping with associated types Base, ModeStorage/Mode, Input and Output; it has
no runtime instances, so in the embedding a family appears only through the
type parameters of each contract (the storage type and the output type).

Rust u32 counters of the activity example are modelled as Nat: every value
reached in the properties below stays far under 2^32, where u32 and Nat
arithmetic coincide, and no swap path performs arithmetic at all.
-/

namespace ModeLib

/-- The crate-level Mode trait of src/src/mode.rs (lines 80-91):
fn swap(self) -> Output. The receiver is consumed by value; note that the
declaration passes no Family::Input value to swap. M is the implementing
(storage) type, O the Family Output type. -/
structure Mode (M O : Type) where
  swap : M → O

/-- Box T: an owned, exclusive heap handle; in the embedding a transparent
wrapper around its contents (no sharing, no count). -/
structure Boxed (T : Type) where
  value : T
deriving DecidableEq

/-- Rc T: a shared, non-atomically reference-counted handle
(std::rc::Rc). strong records the number of live strong references to the
allocation at the moment the handle is used. -/
structure Rc (T : Type) where
  value : T
  strong : Nat
deriving DecidableEq

/-- Arc T: a shared, atomically reference-counted handle
(std::sync::Arc); apart from atomicity of its counter, identical in shape
to Rc T. -/
structure Arc (T : Type) where
  value : T
  strong : Nat
deriving DecidableEq

namespace boxed

/-- The boxed::Mode trait of src/src/mode.rs (lines 96-100):
fn swap(self : Box<Self>) -> Output. -/
structure Mode (T O : Type) where
  swap : Boxed T → O

end boxed

namespace rc

/-- The rc::Mode trait of src/src/mode.rs (lines 119-123):
fn swap(self : Rc<Self>) -> Output. -/
structure Mode (T O : Type) where
  swap : Rc T → O

end rc

namespace sync

/-- The sync::Mode trait of src/src/mode.rs (lines 142-146):
fn swap(self : Arc<Self>) -> Output. -/
structure Mode (T O : Type) where
  swap : Arc T → O

end sync

/-- impl of crate::Mode for Box<T> (src/src/mode.rs lines 102-112): its swap
is fn swap(self) -> Output { self.swap() }, a one-line forward to the inner
boxed::Mode swap on the same box. -/
def modeForBox {T O : Type} (c : boxed.Mode T O) : Mode (Boxed T) O :=
  ⟨fun b => c.swap b⟩

/-- impl of crate::Mode for Rc<T> (src/src/mode.rs lines 125-135): forwards
unconditionally to the inner rc::Mode swap; the strong count is never
examined by this impl. -/
def modeForRc {T O : Type} (c : rc.Mode T O) : Mode (Rc T) O :=
  ⟨fun r => c.swap r⟩

/-- impl of crate::Mode for Arc<T> (src/src/mode.rs lines 148-158): forwards
unconditionally to the inner sync::Mode swap; the strong count is never
examined by this impl. -/
def modeForArc {T O : Type} (c : sync.Mode T O) : Mode (Arc T) O :=
  ⟨fun a => c.swap a⟩

/-- Modelled from the spec: src/automaton.rs is declared in src/src/lib.rs
(mod automaton) but is not among the repository files. Per spec section 4.3 the
Automaton holds exactly one ModeStorage value (the current mode) for a fixed
Family; no other field exists and no empty state is representable. -/
structure Automaton (M : Type) where
  mode : M

/-- Modelled from the spec: Automaton::with_mode(initial) constructs a new
automaton from an initial mode; it never fails. -/
def Automaton.with_mode {M : Type} (m : M) : Automaton M :=
  ⟨m⟩

/-- Modelled from the spec: Automaton::next invokes swap on the current mode,
passing the input, and replaces the stored mode with the Output produced
(Output taken equal to ModeStorage, the conventional chaining choice of spec
section 3). The swap function of the Family mode contract is passed explicitly. -/
def Automaton.next {M I : Type} (swap : M → I → M) (a : Automaton M) (i : I) :
    Automaton M :=
  ⟨swap a.mode i⟩

/-- Modelled from the spec: interface-forwarding access (spec section 4.3) -
a capability of Base, here an arbitrary in-place mutation of the current mode,
called directly on the automaton and forwarded to the current mode. -/
def Automaton.onBase {M : Type} (f : M → M) (a : Automaton M) : Automaton M :=
  ⟨f a.mode⟩

/-- Driving the automaton through one next call per element of a list of
inputs, in order. -/
def Automaton.run {M I : Type} (swap : M → I → M) (a : Automaton M) :
    List I → Automaton M
  | [] => a
  | i :: is => Automaton.run swap (a.next swap i) is

/-- The three concrete mode types of src/examples/activity.rs: Working
(hours_worked), Eating (hours_worked, calories_consumed) and Sleeping
(hours_rested). All counters are u32 in the source, modelled as Nat. -/
inductive ActivityMode : Type where
  | Working (hours_worked : Nat)
  | Eating (hours_worked : Nat) (calories_consumed : Nat)
  | Sleeping (hours_rested : Nat)
deriving DecidableEq

/-- Which concrete mode type is active (the constructor alone, ignoring
field values). -/
inductive ActivityTag : Type where
  | Working
  | Eating
  | Sleeping
deriving DecidableEq

/-- The constructor tag of an activity mode. -/
def ActivityMode.tag : ActivityMode → ActivityTag
  | .Working _ => .Working
  | .Eating _ _ => .Eating
  | .Sleeping _ => .Sleeping

/-- The update method of the Activity trait (src/examples/activity.rs lines
38-43, 65-70, 94-99), with each println rendered as an emitted log line:
Working increments hours_worked, Eating adds 100 calories, Sleeping
increments hours_rested. -/
def ActivityMode.updateLog : ActivityMode → ActivityMode × List String
  | .Working h => (.Working (h + 1), ["Work, work, work..."])
  | .Eating h c => (.Eating h (c + 100), ["Yum!"])
  | .Sleeping r => (.Sleeping (r + 1), ["ZzZzZzZz..."])

/-- The update method, state part only. -/
def ActivityMode.update (m : ActivityMode) : ActivityMode :=
  m.updateLog.1

/-- The swap implementations of src/examples/activity.rs with the println
output of each branch rendered as emitted log lines. Working::swap (lines
49-57): at hours_worked == 4 or >= 8, construct Eating carrying hours_worked
over with calories_consumed = 0, announcing lunch at 4 and dinner otherwise;
else return self. Eating::swap (lines 75-87): at calories_consumed >= 500,
construct Sleeping(hours_rested = 0) when hours_worked >= 8, else construct
Working carrying hours_worked over; below 500 calories return self.
Sleeping::swap (lines 104-110): at hours_rested >= 8 construct
Eating(hours_worked = 0, calories_consumed = 0); else return self. In the
example this swap receives and ignores a unit input. -/
def ActivityMode.swapLog : ActivityMode → Unit → ActivityMode × List String
  | .Working h, _ =>
      if h = 4 ∨ 8 ≤ h then
        (.Eating h 0, [if h = 4 then "Time for lunch!" else "Time for dinner!"])
      else (.Working h, [])
  | .Eating h c, _ =>
      if 500 ≤ c then
        if 8 ≤ h then (.Sleeping 0, ["Time for bed!"])
        else (.Working h, ["Time to go back to work!"])
      else (.Eating h c, [])
  | .Sleeping r, _ =>
      if 8 ≤ r then (.Eating 0 0, ["Time for breakfast!"])
      else (.Sleeping r, [])

/-- The swap of the activity example, state part only. -/
def ActivityMode.swap (m : ActivityMode) (i : Unit) : ActivityMode :=
  (m.swapLog i).1

/-- The automaton of the activity example main (src/examples/activity.rs
lines 113-126), started in Working(hours_worked = 0). -/
def activityStart : Automaton ActivityMode :=
  Automaton.with_mode (.Working 0)

/-- One iteration of the loop body of main (lines 117-125): person.update()
through the automaton (Deref forwarding) followed by Automaton::next. -/
def activityCycle (a : Automaton ActivityMode) : Automaton ActivityMode :=
  (a.onBase ActivityMode.update).next ActivityMode.swap ()

/-- A concrete rc::Mode implementation over Nat state, used to exercise the
shared-ownership impls: its swap constructs a fresh successor handle without
consulting the reference count, as any implementation of the trait may. -/
def rcSucc : rc.Mode Nat (Rc Nat) :=
  ⟨fun r => ⟨r.value + 1, 1⟩⟩

/-- The sync counterpart of rcSucc. -/
def arcSucc : sync.Mode Nat (Arc Nat) :=
  ⟨fun a => ⟨a.value + 1, 1⟩⟩

/-- A boxed-variant mode family over state S whose transition logic is the
step function f: swap relocates the state through f into a fresh box. -/
def boxedStep {S : Type} (f : S → S) : boxed.Mode S (Boxed S) :=
  ⟨fun b => ⟨f b.value⟩⟩

/-- The rc-variant mode family with the same transition logic f. -/
def rcStep {S : Type} (f : S → S) : rc.Mode S (Rc S) :=
  ⟨fun r => ⟨f r.value, 1⟩⟩

/-- The sync-variant mode family with the same transition logic f. -/
def arcStep {S : Type} (f : S → S) : sync.Mode S (Arc S) :=
  ⟨fun a => ⟨f a.value, 1⟩⟩

/-- C1: starting the activity automaton in Working(hours_worked = 0), 4
update+next cycles reach Eating(4, 0) with no calories consumed; 5 more
cycles (each update adding 100 calories) reach 500 calories and swap back to
Working(4) since hours_worked < 8; continuing, once hours_worked reaches 8
the 500-calorie transition goes instead to Sleeping(0); 8 further cycles
return the automaton to Eating(0, 0); and the whole mode sequence over those
26 cycles is the fixed list below, fully deterministic from these rules. -/
theorem activity_scenario :
    (activityCycle^[4] activityStart).mode = .Eating 4 0 ∧
    (activityCycle^[9] activityStart).mode = .Working 4 ∧
    (activityCycle^[13] activityStart).mode = .Eating 8 0 ∧
    (activityCycle^[18] activityStart).mode = .Sleeping 0 ∧
    (activityCycle^[26] activityStart).mode = .Eating 0 0 ∧
    (List.range 27).map (fun n => (activityCycle^[n] activityStart).mode) =
      [.Working 0, .Working 1, .Working 2, .Working 3,
       .Eating 4 0, .Eating 4 100, .Eating 4 200, .Eating 4 300, .Eating 4 400,
       .Working 4, .Working 5, .Working 6, .Working 7,
       .Eating 8 0, .Eating 8 100, .Eating 8 200, .Eating 8 300, .Eating 8 400,
       .Sleeping 0, .Sleeping 1, .Sleeping 2, .Sleeping 3, .Sleeping 4,
       .Sleeping 5, .Sleeping 6, .Sleeping 7, .Eating 0 0] := by
  decide

/-- C3 counterexample: on a handle with two live strong references
(strong = 2, so the caller does not hold the last reference), the generic
Mode impl for Rc still forwards to the inner swap, which here transitions;
the call is not a no-op and does not return the original handle. -/
theorem rc_swap_not_noop_counterexample :
    1 < (⟨0, 2⟩ : Rc Nat).strong ∧
      (modeForRc rcSucc).swap ⟨0, 2⟩ ≠ (⟨0, 2⟩ : Rc Nat) := by
  decide

/-- C3 amended: the generic Mode impls for Rc and Arc forward swap
unconditionally to the inner rc/sync implementation, performing no
last-reference check and guaranteeing no no-op; whether the call transitions
is decided by the inner implementation alone, and a transition can occur even
on a handle that is not the last live reference (strong = 2 and 3 below). -/
theorem shared_swap_forwards_unconditionally :
    (∀ (T O : Type) (c : rc.Mode T O) (r : Rc T),
        (modeForRc c).swap r = c.swap r) ∧
    (∀ (T O : Type) (c : sync.Mode T O) (a : Arc T),
        (modeForArc c).swap a = c.swap a) ∧
    (modeForRc rcSucc).swap ⟨0, 2⟩ = (⟨1, 1⟩ : Rc Nat) ∧
    (modeForArc arcSucc).swap ⟨5, 3⟩ = (⟨6, 1⟩ : Arc Nat) :=
  ⟨fun _ _ _ _ => rfl, fun _ _ _ _ => rfl, rfl, rfl⟩

/-- C4: the generic Mode impls for Box, Rc and Arc each return exactly the
output of the inner ownership-specific swap; consequently, families written
against the three ownership variants with identical transition logic f,
driven from the corresponding owning construct, produce identical observable
state sequences (each equal to the iterates of f). -/
theorem generic_swap_lift_equivalence :
    (∀ (T O : Type) (c : boxed.Mode T O) (b : Boxed T),
        (modeForBox c).swap b = c.swap b) ∧
    (∀ (T O : Type) (c : rc.Mode T O) (r : Rc T),
        (modeForRc c).swap r = c.swap r) ∧
    (∀ (T O : Type) (c : sync.Mode T O) (a : Arc T),
        (modeForArc c).swap a = c.swap a) ∧
    (∀ (S : Type) (f : S → S) (n : Nat) (s : S),
        ((modeForBox (boxedStep f)).swap^[n] ⟨s⟩).value = f^[n] s ∧
        ((modeForRc (rcStep f)).swap^[n] ⟨s, 1⟩).value = f^[n] s ∧
        ((modeForArc (arcStep f)).swap^[n] ⟨s, 1⟩).value = f^[n] s) := by
  refine ⟨fun _ _ _ _ => rfl, fun _ _ _ _ => rfl, fun _ _ _ _ => rfl, ?_⟩
  intro S f n s
  induction n with
  | zero => exact ⟨rfl, rfl, rfl⟩
  | succ n ih =>
      simp only [Function.iterate_succ_apply', modeForBox, modeForRc,
        modeForArc, boxedStep, rcStep, arcStep] at ih ⊢
      exact ⟨congrArg f ih.1, congrArg f ih.2.1, congrArg f ih.2.2⟩

/-- C5: spec-modelled invariant of the Automaton. with_mode is a bijection
from modes onto the automaton state space, so every automaton holds exactly
one live mode and an automaton holding no mode is not representable; and
after every sequence of next calls the automaton is again with_mode of a
single mode, so no intermediate empty state exists along any run. -/
theorem automaton_single_live_mode :
    (∀ (M : Type), Function.Bijective (Automaton.with_mode : M → Automaton M)) ∧
    (∀ (M I : Type) (swap : M → I → M) (a : Automaton M) (inputs : List I),
        ∃ m : M, Automaton.run swap a inputs = Automaton.with_mode m) := by
  constructor
  · intro M
    exact ⟨fun a b h => congrArg Automaton.mode h, fun a => ⟨a.mode, rfl⟩⟩
  · intro M I swap a inputs
    exact ⟨(Automaton.run swap a inputs).mode, rfl⟩

/-- C6: spec-modelled next. next invokes swap on the current mode, passing
the input, and installs the produced Output as the stored mode; with_mode
only sets the initial mode; and Base-forwarded calls (update in the activity
example) never change which concrete mode type is active, so next is the
sole mutator of the active-mode fact. -/
theorem next_sole_mode_mutator :
    (∀ (M I : Type) (swap : M → I → M) (a : Automaton M) (i : I),
        (a.next swap i).mode = swap a.mode i) ∧
    (∀ (M : Type) (m : M), (Automaton.with_mode m).mode = m) ∧
    (∀ (a : Automaton ActivityMode),
        (a.onBase ActivityMode.update).mode.tag = a.mode.tag) := by
  refine ⟨fun _ _ _ _ _ => rfl, fun _ _ => rfl, ?_⟩
  intro a
  rcases a with ⟨m⟩
  cases m <;> rfl

/-- C7: if the swap of the family always returns an instance equivalent to
its receiver (equal results under every Base observation obs), then any
number of next calls, with any inputs, leaves the results of Base calls on
the automaton unchanged compared to performing none. -/
theorem stay_swap_preserves_base_observations
    {M I A : Type} (swap : M → I → M) (obs : M → A)
    (hstay : ∀ (m : M) (i : I), obs (swap m i) = obs m)
    (a : Automaton M) (inputs : List I) :
    obs (Automaton.run swap a inputs).mode = obs a.mode := by
  induction inputs generalizing a with
  | nil => rfl
  | cons i is ih =>
      simp only [Automaton.run]
      rw [ih]
      exact hstay a.mode i

/-- Witness for C7: a concrete automaton over Nat with an identity-returning
swap and the identity observation, run for three unit inputs. -/
theorem stay_swap_preserves_base_observations_witness :
    id (Automaton.run (fun (m : Nat) (_ : Unit) => m) ⟨7⟩ [(), (), ()]).mode =
      id (Automaton.mk 7).mode :=
  stay_swap_preserves_base_observations (fun m _ => m) id (fun _ _ => rfl)
    ⟨7⟩ [(), (), ()]

/-- C8: on the stay path of each swap of the activity example (the else
branch, taken when the transition condition fails) the swap returns the very
mode it consumed and emits no output; the embedded swap is a total pure
function, so no panic and no effect beyond the data transformation occurs on
this path. -/
theorem swap_stay_path_pure :
    (∀ (h : Nat) (i : Unit), ¬(h = 4 ∨ 8 ≤ h) →
        (ActivityMode.Working h).swapLog i = (.Working h, [])) ∧
    (∀ (h c : Nat) (i : Unit), c < 500 →
        (ActivityMode.Eating h c).swapLog i = (.Eating h c, [])) ∧
    (∀ (r : Nat) (i : Unit), r < 8 →
        (ActivityMode.Sleeping r).swapLog i = (.Sleeping r, [])) := by
  refine ⟨?_, ?_, ?_⟩
  · intro h i hn
    simp only [ActivityMode.swapLog, if_neg hn]
  · intro h c i hc
    simp only [ActivityMode.swapLog, if_neg (by omega : ¬ 500 ≤ c)]
  · intro r i hr
    simp only [ActivityMode.swapLog, if_neg (by omega : ¬ 8 ≤ r)]

/-- C9: transitions relocate the hours_worked resource into the new mode:
Working to Eating (taken at hours_worked = 4 or >= 8) constructs the Eating
with exactly the outgoing hours_worked, and Eating to Working (taken at 500
calories while hours_worked < 8) constructs the Working with exactly the
outgoing hours_worked. -/
theorem transition_relocates_hours_worked :
    (∀ (h : Nat) (i : Unit), (h = 4 ∨ 8 ≤ h) →
        (ActivityMode.Working h).swap i = .Eating h 0) ∧
    (∀ (h c : Nat) (i : Unit), 500 ≤ c → h < 8 →
        (ActivityMode.Eating h c).swap i = .Working h) := by
  constructor
  · intro h i ht
    simp only [ActivityMode.swap, ActivityMode.swapLog, if_pos ht]
  · intro h c i hc hh
    simp only [ActivityMode.swap, ActivityMode.swapLog, if_pos hc,
      if_neg (by omega : ¬ 8 ≤ h)]

/-- C10: Sleeping swaps to Eating exactly when hours_rested >= 8, and the
Eating it constructs has hours_worked = 0 and calories_consumed = 0 (below 8
hours rested the swap stays Sleeping unchanged); by contrast the
Working-to-Eating transition carries the accumulated hours_worked over. -/
theorem sleeping_to_eating_resets :
    (∀ (r : Nat) (i : Unit),
        ((ActivityMode.Sleeping r).swap i = .Eating 0 0 ↔ 8 ≤ r) ∧
        (r < 8 → (ActivityMode.Sleeping r).swap i = .Sleeping r)) ∧
    (∀ (h : Nat) (i : Unit), 8 ≤ h →
        (ActivityMode.Working h).swap i = .Eating h 0) := by
  constructor
  · intro r i
    by_cases hr : 8 ≤ r
    · refine ⟨⟨fun _ => hr, fun _ => ?_⟩, fun hlt => absurd hr (by omega)⟩
      simp only [ActivityMode.swap, ActivityMode.swapLog, if_pos hr]
    · have hstay : (ActivityMode.Sleeping r).swap i = .Sleeping r := by
        simp only [ActivityMode.swap, ActivityMode.swapLog, if_neg hr]
      refine ⟨⟨fun he => ?_, fun h8 => absurd h8 hr⟩, fun _ => hstay⟩
      rw [hstay] at he
      exact absurd he (by simp)
  · intro h i hh
    simp only [ActivityMode.swap, ActivityMode.swapLog,
      if_pos (Or.inr hh : h = 4 ∨ 8 ≤ h)]

end ModeLib
